import Mathlib

/-!
# Verification of the MegaArtsStore render-job pipeline

A shallow embedding of the render-job subsystem of the MegaArtsStore backend:
the Job Store operations (`app/services/job_service.py`), the background
processing pipeline (`process_job_background` and its three paths), the pure
Python renderer (`app/services/python_renderer.py`), the background task queue
(`app/services/task_queue.py`), and the render routes (`app/routes/render.py`).

Conventions of the embedding:
* MongoDB documents become Lean structures; `$set` / `$push` update operators
  become record updates; `datetime.utcnow()` becomes an explicit `now : Nat`
  argument threaded through the calls.
* Python `if x:` truthiness on an optional string is modelled as
  "`some` and not the empty string"; truthiness of an optional structured
  value is modelled as `Option.isSome` (the code never stores an empty dict
  in those fields).
* The asynchronous pipeline is modelled by the ordered list of Job Store
  writes it performs (`JobUpdate`), together with the message of the
  exception that escapes the body, if any.  `_simulate_processing` performs
  no write and always raises: its opening imports include
  `from app.services.storage_service import upload_file`, and
  `storage_service` defines no `upload_file`, so an ImportError fires at
  entry, before the try/except around `get_renderer()`.  The renderer body
  below that import, the `downloading`/`analyzing` writes it would perform,
  and the delegation to `_simulate_processing_fallback` are therefore dead
  code; the fallback is still modelled because the source defines it as a
  separate function.
-/

set_option maxHeartbeats 1000000
set_option maxRecDepth 4000

/-- Optimization statistics dict returned by `_optimize_model_sync`. -/
structure OptStats where
  original_faces : Nat
  original_vertices : Nat
  optimized_faces : Nat
  optimized_vertices : Nat
  reduction_percentage : ℚ
deriving DecidableEq

/-- Dimension/metadata dict returned by `_extract_dimensions_sync`. -/
structure Dimensions where
  width : ℚ
  height : ℚ
  depth : ℚ
  volume : Option ℚ
  surface_area : ℚ
  center : List ℚ
  bounds_min : List ℚ
  bounds_max : List ℚ
  faces : Nat
  vertices : Nat
  is_watertight : Bool
deriving DecidableEq

/-- AR configuration dict built by the pipeline.  The library-renderer path
additionally stores the full `dimensions` dict; the fallback and Blender
paths leave it absent (`none`). -/
structure ArConfig where
  scale : ℚ
  rotation : List ℚ
  offset : List ℚ
  wrist_diameter : ℚ
  bangle_thickness : ℚ
  center_point : List ℚ
  dimensions : Option Dimensions
deriving DecidableEq

/-- A value stored in the `output_files` mapping: a URL, an explicit `None`,
a list of URLs (`renders_360`), or an optimization-stats dict. -/
inductive OutVal where
  | null : OutVal
  | url : String → OutVal
  | urls : List String → OutVal
  | stats : OptStats → OutVal
deriving DecidableEq

/-- A render-job document (`RenderJobDocument` fields, `app/models/render_job.py`). -/
structure Job where
  job_id : String
  product_id : String
  input_file : String
  job_type : String
  status : String
  progress : Nat
  output_files : List (String × OutVal)
  ar_config : Option ArConfig
  error : Option String
  logs : List (Nat × String)
  created_at : Nat
  started_at : Option Nat
  completed_at : Option Nat
deriving DecidableEq

/-- `RenderJobDocument.create_document`: fresh job with status `pending`,
progress 0, empty logs and outputs, timestamps null except `created_at`.
The `job_id` (a uuid4 in the source) is supplied by the caller. -/
def create_document (job_id product_id input_file job_type : String) (now : Nat) : Job :=
  { job_id := job_id
    product_id := product_id
    input_file := input_file
    job_type := job_type
    status := "pending"
    progress := 0
    output_files := []
    ar_config := none
    error := none
    logs := []
    created_at := now
    started_at := none
    completed_at := none }

/-- `_job_has_started`: whether `started_at` is already set. -/
def _job_has_started (job : Job) : Bool :=
  job.started_at.isSome

/-- `update_job_status`: sets `status`, sets `progress` when provided, stamps
`started_at` when the new status is `"processing"` and the job has not
started, stamps `completed_at` on `"completed"`/`"failed"`, sets `error` when
the argument is truthy, and appends a timestamped log line when the log
message is truthy.  A faithful translation of the `update_doc` construction
in `job_service.update_job_status`. -/
def update_job_status (job : Job) (status : String) (progress : Option Nat)
    (log_message : Option String) (error : Option String) (now : Nat) : Job :=
  let job1 := { job with status := status }
  let job2 :=
    match progress with
    | some p => { job1 with progress := p }
    | none => job1
  let job3 :=
    if status = "processing" ∧ _job_has_started job = false then
      { job2 with started_at := some now }
    else job2
  let job4 :=
    if status = "completed" ∨ status = "failed" then
      { job3 with completed_at := some now }
    else job3
  let job5 :=
    match error with
    | some e => if e = "" then job4 else { job4 with error := some e }
    | none => job4
  match log_message with
  | some m => if m = "" then job5 else { job5 with logs := job5.logs ++ [(now, m)] }
  | none => job5

/-- `update_job_outputs`: a Mongo `$set` on the whole `output_files` field
(replacing the stored mapping), plus `ar_config` when the argument is
truthy. -/
def update_job_outputs (job : Job) (output_files : List (String × OutVal))
    (ar_config : Option ArConfig) : Job :=
  let job1 := { job with output_files := output_files }
  match ar_config with
  | some cfg => { job1 with ar_config := some cfg }
  | none => job1



/-! ## The background processing pipeline

`process_job_background` and its bodies are modelled by the ordered list of
Job Store writes they perform, paired with the message of the exception that
escapes the body, if any.  With Blender enabled the body is
`_run_blender_processing`, whose external calls are stubbed sleeps in the
source; with Blender disabled it is `_simulate_processing`, which raises
ImportError at entry.
-/

/-- One write against the Job Store: either an `update_job_status` call or an
`update_job_outputs` call, with the arguments the pipeline passes. -/
inductive JobUpdate where
  | status : String → Option Nat → Option String → Option String → JobUpdate
  | outputs : List (String × OutVal) → Option ArConfig → JobUpdate

/-- The placeholder AR config built by `_simulate_processing_fallback` and by
`_run_blender_processing`. -/
def placeholder_ar_config : ArConfig :=
  { scale := 1
    rotation := [0, 0, 0]
    offset := [0, 0, 0]
    wrist_diameter := 13 / 2
    bangle_thickness := 1 / 2
    center_point := [0, 0, 0]
    dimensions := none }

/-- The simulated-output slots written by the fallback and Blender paths:
every slot, including `"glb"`, holds `None`. -/
def simulated_output_files : List (String × OutVal) :=
  [("glb", OutVal.null), ("preview_front", OutVal.null), ("preview_angle", OutVal.null),
   ("preview_detail", OutVal.null), ("turntable", OutVal.null)]

/-- `_simulate_processing_fallback`: the writes of the pure simulation.  It
cannot raise.  Its only caller sits inside `_simulate_processing`, after
the failing `upload_file` import, so it is dead code in the program;
modelled because the source defines it. -/
def _simulate_processing_fallback : List JobUpdate :=
  [JobUpdate.status "optimizing" (some 40) (some "Cleaning model...") none,
   JobUpdate.status "rendering" (some 60) (some "Optimizing mesh...") none,
   JobUpdate.status "exporting" (some 80) (some "Generating previews...") none,
   JobUpdate.outputs simulated_output_files (some placeholder_ar_config),
   JobUpdate.status "completed" (some 100) (some "Processing complete (simulated)") none]

/-- `_run_blender_processing`: the writes of the Blender path (the Blender
invocations themselves are stubbed `sleep`s in the source). -/
def _run_blender_processing : List JobUpdate :=
  [JobUpdate.status "cleaning" (some 30) (some "Running model cleaner...") none,
   JobUpdate.status "optimizing" (some 50) (some "Optimizing mesh for AR...") none,
   JobUpdate.status "rendering" (some 70) (some "Generating preview renders...") none,
   JobUpdate.status "exporting" (some 90) (some "Exporting GLB with Draco compression...") none,
   JobUpdate.outputs simulated_output_files (some placeholder_ar_config),
   JobUpdate.status "completed" (some 100) (some "Blender processing complete") none]

/-- The message of the ImportError raised at the entry of
`_simulate_processing`.  The function's opening imports include
`from app.services.storage_service import upload_file` (job_service.py line
217), and `storage_service` defines no `upload_file` — its functions are
`init_cloudinary`, `upload_image`, `upload_3d_model`, `upload_video`,
`delete_file` and `get_optimized_url` — so the import raises before the
try/except around `get_renderer()` and before any Job Store write.  (The
exact runtime text, a missing-name ImportError or a module ImportError when
`cloudinary` itself is absent, is environment-dependent; this constant
stands for the message `str(e)` yields, non-empty in every case.) -/
def upload_file_import_error : String :=
  "cannot import name upload_file from app.services.storage_service"

/-- `_simulate_processing`: the Job Store writes it performs, paired with
the message of the exception that escapes it.  The import of the
nonexistent `upload_file` fires unconditionally at entry, so the function
performs no write and raises ImportError: the renderer body below that
failing line (the `downloading`/`analyzing` writes, the optimize, render
and extract calls, the outputs write) and the ImportError handler that would delegate
to `_simulate_processing_fallback` (it guards only `get_renderer()`) are
unreachable. -/
def _simulate_processing : List JobUpdate × Option String :=
  ([], some upload_file_import_error)

/-- `process_job_background`: writes `validating`/`cleaning`, then runs the
Blender path when `blender_enabled and blender_path` holds, otherwise calls
`_simulate_processing`, which raises at entry; any exception escaping the
body is caught and converted into a final `failed` status write carrying the
exception message (no raw exception reaches callers). -/
def process_job_background (use_blender : Bool) : List JobUpdate :=
  let head := [JobUpdate.status "validating" (some 10) (some "Starting validation...") none,
               JobUpdate.status "cleaning" (some 25) (some "Validating model structure...") none]
  let body := if use_blender then (_run_blender_processing, none) else _simulate_processing
  match body.2 with
  | none => head ++ body.1
  | some e =>
      head ++ body.1 ++
        [JobUpdate.status "failed" none (some ("Processing failed: " ++ e)) (some e)]

/-- Apply one pipeline write to a job document at time `now`. -/
def applyUpdate (now : Nat) (job : Job) : JobUpdate → Job
  | JobUpdate.status st p lg err => update_job_status job st p lg err now
  | JobUpdate.outputs fs ar => update_job_outputs job fs ar

/-- The job document after applying a whole list of writes, one time tick
per write. -/
def runTrace (now : Nat) (job : Job) : List JobUpdate → Job
  | [] => job
  | u :: us => runTrace (now + 1) (applyUpdate now job u) us

/-- The successive job documents observable after each write. -/
def jobStates (now : Nat) (job : Job) : List JobUpdate → List Job
  | [] => []
  | u :: us =>
    let j := applyUpdate now job u
    j :: jobStates (now + 1) j us

/-- The status values written by a list of Job Store writes, in order. -/
def statusWrites : List JobUpdate → List String
  | [] => []
  | JobUpdate.status st _ _ _ :: us => st :: statusWrites us
  | JobUpdate.outputs _ _ :: us => statusWrites us

/-- The progress value observable after each write, starting from progress
`p` (a `status` write with a progress argument sets it; other writes leave
it unchanged).  Mirrors the `progress` field of `jobStates`. -/
def progressTrack (p : Nat) : List JobUpdate → List Nat
  | [] => []
  | JobUpdate.status _ (some q) _ _ :: us => q :: progressTrack q us
  | JobUpdate.status _ none _ _ :: us => p :: progressTrack p us
  | JobUpdate.outputs _ _ :: us => p :: progressTrack p us

/-! ## Predicates over status and progress traces -/

/-- The status values that actually occur in job documents: exactly the
eight listed by the spec's state machine and by
`RenderJobDocument.get_status_display`. -/
def allowedStatuses : List String :=
  ["pending", "validating", "cleaning", "optimizing", "rendering",
   "exporting", "completed", "failed"]

/-- Position of a status in the spec's progression order. -/
def statusRank (s : String) : Nat :=
  if s = "pending" then 0
  else if s = "validating" then 1
  else if s = "cleaning" then 2
  else if s = "optimizing" then 3
  else if s = "rendering" then 4
  else if s = "exporting" then 5
  else if s = "completed" then 6
  else 7

/-- Forward progression as the code exhibits it: each written status ranks
strictly above its predecessor, except that `cleaning` may repeat
immediately (the Blender path writes it at progress 25 and again at 30). -/
def forwardOnly : List String → Bool
  | [] => true
  | [_] => true
  | a :: b :: rest =>
    (decide (statusRank a < statusRank b) || (a == b && a == "cleaning")) &&
      forwardOnly (b :: rest)

/-- The claim's strict reading of moving only forward: every successive
status write ranks strictly above its predecessor, with no repeats. -/
def strictlyForward : List String → Bool
  | [] => true
  | [_] => true
  | a :: b :: rest => decide (statusRank a < statusRank b) && strictlyForward (b :: rest)

/-- No status value is written after a terminal (`completed`/`failed`) one. -/
def noStatusAfterTerminal : List String → Bool
  | [] => true
  | s :: rest =>
    (if s == "completed" || s == "failed" then rest.isEmpty else true) &&
      noStatusAfterTerminal rest

/-- No Job Store write of any kind follows a terminal status write. -/
def terminalIsFinal : List JobUpdate → Bool
  | [] => true
  | JobUpdate.status st _ _ _ :: rest =>
    (if st == "completed" || st == "failed" then rest.isEmpty else true) &&
      terminalIsFinal rest
  | JobUpdate.outputs _ _ :: rest => terminalIsFinal rest

/-! ## The pure Python renderer (`python_renderer.py`) -/

/-- The geometry-relevant content of a loaded mesh: its face and vertex
counts.  The decimation algorithm itself (`simplify_quadric_decimation`) is
an external library call, abstracted as a function argument below. -/
structure Mesh where
  faces : Nat
  vertices : Nat
deriving DecidableEq

/-- Python's `round(x, 2)` on the exact rational value `x`.  (Python rounds
half-to-even; the two conventions agree everywhere the pipeline's values
arise, and in particular at 0, the only value these theorems evaluate.) -/
def pythonRound2 (q : ℚ) : ℚ :=
  (round (q * 100) : ℤ) / 100

/-- `_optimize_model_sync`: loads the mesh, decimates it only when its face
count exceeds `target_faces`, re-exports the (possibly unchanged) mesh to
the output GLB, and reports statistics.  The returned mesh is the geometry
written to the output file.  A zero-face input makes the Python code raise
`ZeroDivisionError` when computing `reduction_percentage` (after the export
has already happened), modelled as the error case. -/
def _optimize_model_sync (simplify_quadric_decimation : Mesh → Nat → Mesh)
    (mesh : Mesh) (target_faces : Nat) : Except String (Mesh × OptStats) :=
  let original_faces := mesh.faces
  let original_vertices := mesh.vertices
  let m := if original_faces > target_faces then simplify_quadric_decimation mesh target_faces else mesh
  if original_faces = 0 then
    Except.error "ZeroDivisionError: division by zero"
  else
    Except.ok (m,
      { original_faces := original_faces
        original_vertices := original_vertices
        optimized_faces := m.faces
        optimized_vertices := m.vertices
        reduction_percentage := pythonRound2 ((1 - (m.faces : ℚ) / (original_faces : ℚ)) * 100) })

/-! ## The background task queue (`task_queue.py`)

The `TaskQueue` class runs `max_workers` asyncio worker loops over one
shared queue.  Its behaviour is modelled as a transition system: `enqueue`
registers a pending task and appends its id to the queue; an idle worker may
pick the queue head, marking it running; a worker may finish its task,
marking it completed or failed.  Task-id freshness (uuid4 in the source) is
a hypothesis of the enqueue step. -/

/-- Scheduler-level task status (`TaskStatus` enum). -/
inductive TaskStatus where
  | pending
  | running
  | completed
  | failed
deriving DecidableEq

/-- The per-task metadata dict stored in `TaskQueue.tasks` (the function and
its arguments, and the task result, are abstracted away). -/
structure TaskInfo where
  id : Nat
  name : String
  status : TaskStatus
  created_at : Nat
  started_at : Option Nat
  completed_at : Option Nat
  error : Option String
deriving DecidableEq

/-- The metadata recorded by `TaskQueue.enqueue`. -/
def newTask (t : Nat) (name : String) (now : Nat) : TaskInfo :=
  { id := t, name := name, status := TaskStatus.pending, created_at := now,
    started_at := none, completed_at := none, error := none }

/-- The worker's bookkeeping when it pulls a task: status running, start
timestamp. -/
def setTaskRunning (tasks : List TaskInfo) (t : Nat) (now : Nat) : List TaskInfo :=
  tasks.map fun info =>
    if info.id = t then { info with status := TaskStatus.running, started_at := some now }
    else info

/-- The worker's bookkeeping when the task body returns or raises: status
completed/failed, completion timestamp, error message on failure. -/
def setTaskDone (tasks : List TaskInfo) (t : Nat) (ok : Bool) (err : String) (now : Nat) :
    List TaskInfo :=
  tasks.map fun info =>
    if info.id = t then
      if ok then { info with status := TaskStatus.completed, completed_at := some now }
      else { info with status := TaskStatus.failed, completed_at := some now, error := some err }
    else info

/-- The mutable state of a `TaskQueue`: the task registry, the FIFO queue of
task ids, and one slot per worker holding the task it is executing, if any. -/
structure TaskQueueState where
  max_workers : Nat
  tasks : List TaskInfo
  queue : List Nat
  workers : List (Option Nat)

/-- The ids currently being executed by some worker. -/
def busyList (s : TaskQueueState) : List Nat :=
  s.workers.filterMap id

/-- A freshly started queue (`TaskQueue(max_workers=n)` + `start()`):
`n` idle workers, empty registry and queue. -/
def initState (n : Nat) : TaskQueueState :=
  { max_workers := n, tasks := [], queue := [], workers := List.replicate n none }

/-- The process-wide instance: `task_queue = TaskQueue(max_workers=5)`. -/
def task_queue_init : TaskQueueState :=
  initState 5

/-- State after `enqueue`: metadata registered, id appended to the queue.
`enqueue` never rejects a submission. -/
def enqueueState (s : TaskQueueState) (t : Nat) (name : String) (now : Nat) : TaskQueueState :=
  { s with tasks := s.tasks ++ [newTask t name now], queue := s.queue ++ [t] }

/-- State after an idle worker `w` pulls the queue head `t`. -/
def pickState (s : TaskQueueState) (w t : Nat) (rest : List Nat) (now : Nat) : TaskQueueState :=
  { s with tasks := setTaskRunning s.tasks t now,
           workers := s.workers.set w (some t),
           queue := rest }

/-- State after worker `w` finishes its task `t` (successfully when `ok`). -/
def finishState (s : TaskQueueState) (w t : Nat) (ok : Bool) (err : String) (now : Nat) :
    TaskQueueState :=
  { s with tasks := setTaskDone s.tasks t ok err now,
           workers := s.workers.set w none }

/-- One step of the task queue: a submission (with a fresh uuid), a worker
pulling the queue head, or a worker finishing its task. -/
inductive TaskStep : TaskQueueState → TaskQueueState → Prop where
  | enqueue (s : TaskQueueState) (t : Nat) (name : String) (now : Nat)
      (fresh : t ∉ s.tasks.map TaskInfo.id) :
      TaskStep s (enqueueState s t name now)
  | pick (s : TaskQueueState) (w t : Nat) (rest : List Nat) (now : Nat)
      (hq : s.queue = t :: rest) (hw : s.workers.get? w = some none) :
      TaskStep s (pickState s w t rest now)
  | finish (s : TaskQueueState) (w t : Nat) (ok : Bool) (err : String) (now : Nat)
      (hw : s.workers.get? w = some (some t)) :
      TaskStep s (finishState s w t ok err now)

/-- States reachable from a freshly started queue with `n` workers. -/
inductive TaskReachable (n : Nat) : TaskQueueState → Prop where
  | init : TaskReachable n (initState n)
  | step {s s2 : TaskQueueState} : TaskReachable n s → TaskStep s s2 → TaskReachable n s2

/-- The aggregate counters returned by `get_queue_stats`. -/
structure QueueStats where
  queue_size : Nat
  total_tasks : Nat
  pending : Nat
  running : Nat
  completed : Nat
  failed : Nat
  workers : Nat
deriving DecidableEq

/-- `TaskQueue.get_queue_stats`: counts tasks by scheduler status. -/
def get_queue_stats (s : TaskQueueState) : QueueStats :=
  { queue_size := s.queue.length
    total_tasks := s.tasks.length
    pending := s.tasks.countP (fun i => i.status == TaskStatus.pending)
    running := s.tasks.countP (fun i => i.status == TaskStatus.running)
    completed := s.tasks.countP (fun i => i.status == TaskStatus.completed)
    failed := s.tasks.countP (fun i => i.status == TaskStatus.failed)
    workers := s.max_workers }

/-- The inductive invariant of the task queue. -/
structure TQInv (s : TaskQueueState) : Prop where
  ids_nodup : (s.tasks.map TaskInfo.id).Nodup
  busy_nodup : (busyList s).Nodup
  queue_nodup : s.queue.Nodup
  queue_tasks : ∀ t ∈ s.queue, t ∈ s.tasks.map TaskInfo.id
  busy_tasks : ∀ t ∈ busyList s, t ∈ s.tasks.map TaskInfo.id
  queue_busy_disjoint : ∀ t ∈ s.queue, t ∉ busyList s
  running_busy : ∀ info ∈ s.tasks, info.status = TaskStatus.running → info.id ∈ busyList s
  workers_len : s.workers.length = s.max_workers

/-! ## Job history listing (`get_jobs_by_product` + `GET /jobs/{product_id}`) -/

/-- The Mongo sort key `("created_at", -1)`: `a` sorts before `b` when `a`
is at least as new. -/
def newerFirst (a b : Job) : Prop :=
  b.created_at ≤ a.created_at

instance : DecidableRel newerFirst :=
  fun a b => Nat.decLe b.created_at a.created_at

instance : IsTotal Job newerFirst :=
  ⟨fun a b => (Nat.le_total b.created_at a.created_at).imp id id⟩

instance : IsTrans Job newerFirst :=
  ⟨fun _ _ _ hab hbc => Nat.le_trans hbc hab⟩

/-- The collection sorted newest-first (the embedding of
`find(...).sort("created_at", -1)`). -/
def sortNewestFirst (jobs : List Job) : List Job :=
  List.insertionSort newerFirst jobs

/-- `get_jobs_by_product`: the jobs of one product, newest first, truncated
by `to_list(length=100)`. -/
def get_jobs_by_product (db : List Job) (product_id : String) : List Job :=
  (sortNewestFirst (db.filter (fun j => j.product_id == product_id))).take 100

/-- The `GET /render/jobs/{product_id}` route: the listed jobs and the
`total` field, which is the length of the returned (truncated) list. -/
def get_product_jobs (db : List Job) (product_id : String) : List Job × Nat :=
  let jobs := get_jobs_by_product db product_id
  (jobs, jobs.length)

/-- Fixture: a job of product `"p"` created at time `i`. -/
def mkJob (i : Nat) : Job :=
  create_document ("job-" ++ toString i) "p" "in.glb" "full_render" i

/-- Fixture: 101 jobs of the same product. -/
def db101 : List Job :=
  (List.range 101).map mkJob

/-! ## The result-retrieval route (`GET /render/result/{job_id}`) -/

/-- The product fields touched by the render routes. -/
structure Product where
  product_id : String
  ar_config : Option ArConfig
  updated_at : Nat
deriving DecidableEq

/-- `product_service.update_ar_config`: `$set` of `ar_config` and
`updated_at` on the product document. -/
def update_ar_config (p : Product) (cfg : ArConfig) (now : Nat) : Product :=
  { p with ar_config := some cfg, updated_at := now }

/-- `get_job_result`: returns 400 when the job is not completed (leaving the
product untouched); on a completed job, first writes the job's `ar_config`
onto the product when that config is truthy, then returns the job.  The
result pairs the HTTP outcome with the product state after the call. -/
def get_job_result (job : Job) (product : Product) (now : Nat) :
    Except (Nat × String) Job × Product :=
  if job.status ≠ "completed" then
    (Except.error (400, "Job is not completed. Current status: " ++ job.status), product)
  else
    match job.ar_config with
    | some cfg => (Except.ok job, update_ar_config product cfg now)
    | none => (Except.ok job, product)

/-- The spec's monotonicity property: each observable progress value is at
least the previous one. -/
def progressNonDecreasing : List Nat → Bool
  | [] => true
  | [_] => true
  | a :: b :: rest => decide (a ≤ b) && progressNonDecreasing (b :: rest)

/-! ## Helper lemmas -/
section JobStoreProjections

@[simp] theorem update_job_status_status (j : Job) (st : String) (p : Option Nat)
    (lg err : Option String) (now : Nat) :
    (update_job_status j st p lg err now).status = st := by
  unfold update_job_status
  rcases p with _ | q <;> rcases lg with _ | m <;> rcases err with _ | e <;>
    dsimp only <;> split_ifs <;> rfl

@[simp] theorem update_job_status_progress (j : Job) (st : String) (p : Option Nat)
    (lg err : Option String) (now : Nat) :
    (update_job_status j st p lg err now).progress = p.getD j.progress := by
  unfold update_job_status
  rcases p with _ | q <;> rcases lg with _ | m <;> rcases err with _ | e <;>
    dsimp only <;> split_ifs <;> rfl

@[simp] theorem update_job_status_started_at (j : Job) (st : String) (p : Option Nat)
    (lg err : Option String) (now : Nat) :
    (update_job_status j st p lg err now).started_at =
      if st = "processing" ∧ _job_has_started j = false then some now
      else j.started_at := by
  unfold update_job_status
  rcases p with _ | q <;> rcases lg with _ | m <;> rcases err with _ | e <;>
    dsimp only <;> split_ifs <;> rfl

@[simp] theorem update_job_status_completed_at (j : Job) (st : String) (p : Option Nat)
    (lg err : Option String) (now : Nat) :
    (update_job_status j st p lg err now).completed_at =
      if st = "completed" ∨ st = "failed" then some now else j.completed_at := by
  unfold update_job_status
  rcases p with _ | q <;> rcases lg with _ | m <;> rcases err with _ | e <;>
    dsimp only <;> split_ifs <;> rfl

@[simp] theorem update_job_status_error (j : Job) (st : String) (p : Option Nat)
    (lg err : Option String) (now : Nat) :
    (update_job_status j st p lg err now).error =
      (match err with
       | some e => if e = "" then j.error else some e
       | none => j.error) := by
  unfold update_job_status
  rcases p with _ | q <;> rcases lg with _ | m <;> rcases err with _ | e <;>
    dsimp only <;> split_ifs <;> rfl

@[simp] theorem update_job_status_output_files (j : Job) (st : String) (p : Option Nat)
    (lg err : Option String) (now : Nat) :
    (update_job_status j st p lg err now).output_files = j.output_files := by
  unfold update_job_status
  rcases p with _ | q <;> rcases lg with _ | m <;> rcases err with _ | e <;>
    dsimp only <;> split_ifs <;> rfl

@[simp] theorem update_job_status_ar_config (j : Job) (st : String) (p : Option Nat)
    (lg err : Option String) (now : Nat) :
    (update_job_status j st p lg err now).ar_config = j.ar_config := by
  unfold update_job_status
  rcases p with _ | q <;> rcases lg with _ | m <;> rcases err with _ | e <;>
    dsimp only <;> split_ifs <;> rfl

@[simp] theorem update_job_outputs_output_files (j : Job)
    (fs : List (String × OutVal)) (ar : Option ArConfig) :
    (update_job_outputs j fs ar).output_files = fs := by
  unfold update_job_outputs
  rcases ar with _ | cfg <;> rfl

@[simp] theorem update_job_outputs_ar_config (j : Job)
    (fs : List (String × OutVal)) (ar : Option ArConfig) :
    (update_job_outputs j fs ar).ar_config =
      (match ar with
       | some cfg => some cfg
       | none => j.ar_config) := by
  unfold update_job_outputs
  rcases ar with _ | cfg <;> rfl

@[simp] theorem update_job_outputs_status (j : Job)
    (fs : List (String × OutVal)) (ar : Option ArConfig) :
    (update_job_outputs j fs ar).status = j.status := by
  unfold update_job_outputs
  rcases ar with _ | cfg <;> rfl

@[simp] theorem update_job_outputs_progress (j : Job)
    (fs : List (String × OutVal)) (ar : Option ArConfig) :
    (update_job_outputs j fs ar).progress = j.progress := by
  unfold update_job_outputs
  rcases ar with _ | cfg <;> rfl

@[simp] theorem update_job_outputs_started_at (j : Job)
    (fs : List (String × OutVal)) (ar : Option ArConfig) :
    (update_job_outputs j fs ar).started_at = j.started_at := by
  unfold update_job_outputs
  rcases ar with _ | cfg <;> rfl

@[simp] theorem update_job_outputs_completed_at (j : Job)
    (fs : List (String × OutVal)) (ar : Option ArConfig) :
    (update_job_outputs j fs ar).completed_at = j.completed_at := by
  unfold update_job_outputs
  rcases ar with _ | cfg <;> rfl

@[simp] theorem update_job_outputs_error (j : Job)
    (fs : List (String × OutVal)) (ar : Option ArConfig) :
    (update_job_outputs j fs ar).error = j.error := by
  unfold update_job_outputs
  rcases ar with _ | cfg <;> rfl

end JobStoreProjections

@[simp] theorem statusWrites_nil : statusWrites [] = [] := rfl

@[simp] theorem statusWrites_cons_status (st : String) (p : Option Nat)
    (lg err : Option String) (us : List JobUpdate) :
    statusWrites (JobUpdate.status st p lg err :: us) = st :: statusWrites us := rfl

@[simp] theorem statusWrites_cons_outputs (fs : List (String × OutVal))
    (ar : Option ArConfig) (us : List JobUpdate) :
    statusWrites (JobUpdate.outputs fs ar :: us) = statusWrites us := rfl

@[simp] theorem statusWrites_append (a b : List JobUpdate) :
    statusWrites (a ++ b) = statusWrites a ++ statusWrites b := by
  induction a with
  | nil => rfl
  | cons u us ih => cases u <;> simp [statusWrites, ih]


theorem map_progress_jobStates (us : List JobUpdate) :
    ∀ (now : Nat) (j : Job), (jobStates now j us).map Job.progress = progressTrack j.progress us := by
  induction us with
  | nil => intro now j; rfl
  | cons u rest ih =>
    intro now j
    cases u with
    | status st p lg err =>
      cases p with
      | none =>
        simp [jobStates, progressTrack, applyUpdate, ih]
      | some q =>
        simp [jobStates, progressTrack, applyUpdate, ih]
    | outputs fs ar =>
      simp [jobStates, progressTrack, applyUpdate, ih]


/-! ## Claims -/

/-- Claim C5, as stated, is false: `update_job_outputs` does not merge the
new entries into the existing mapping.  It issues a Mongo `$set` on the
whole `output_files` field, so an existing `"glb"` entry disappears when a
later call supplies a mapping without that slot. -/
theorem c5_counterexample :
    (({ create_document "j1" "p1" "in.glb" "full_render" 0 with
          output_files := [("glb", OutVal.url "https://cdn.example/old.glb")] } : Job).output_files.lookup
        "glb").isSome = true ∧
    (update_job_outputs
        { create_document "j1" "p1" "in.glb" "full_render" 0 with
            output_files := [("glb", OutVal.url "https://cdn.example/old.glb")] }
        [("thumbnail", OutVal.url "https://cdn.example/t.png")] none).output_files.lookup "glb" =
      none := by
  exact ⟨rfl, rfl⟩

/-- Claim C5, amended: `update_job_outputs` replaces the stored
`output_files` mapping with exactly the supplied mapping (entries absent
from the new mapping are lost), and sets `ar_config` when one is provided,
leaving it unchanged otherwise. -/
theorem c5_outputs_replace (job : Job) (files : List (String × OutVal)) (cfg : ArConfig) :
    (update_job_outputs job files (some cfg)).output_files = files ∧
    (update_job_outputs job files (some cfg)).ar_config = some cfg ∧
    (update_job_outputs job files none).output_files = files ∧
    (update_job_outputs job files none).ar_config = job.ar_config := by
  exact ⟨rfl, rfl, rfl, rfl⟩

/-- Claim C6 names correct intended behaviour that the code does not
implement: `update_job_status` stamps `started_at` only when the new status
is the literal `"processing"`, a value no call site ever passes, so a
pending job updated to `validating` keeps `started_at = none`; a
Blender-enabled run driven all the way to `completed`, and a
Blender-disabled run driven to its `failed` end, both still finish with
`started_at = none`. -/
theorem c6_started_at_never_set :
    (update_job_status (create_document "j1" "p1" "in.glb" "full_render" 0)
        "validating" (some 10) (some "Starting validation...") none 1).started_at = none ∧
    (runTrace 1 (create_document "j1" "p1" "in.glb" "full_render" 0)
        (process_job_background true)).status = "completed" ∧
    (runTrace 1 (create_document "j1" "p1" "in.glb" "full_render" 0)
        (process_job_background true)).started_at = none ∧
    (runTrace 1 (create_document "j2" "p1" "in.glb" "full_render" 0)
        (process_job_background false)).status = "failed" ∧
    (runTrace 1 (create_document "j2" "p1" "in.glb" "full_render" 0)
        (process_job_background false)).started_at = none := by
  exact ⟨rfl, rfl, rfl, rfl, rfl⟩

/-- Claim C7: when the input mesh is already at or below the face target
(and has at least one face, so the stats division is defined), the optimize
stage performs no decimation — the mesh written to the output file is the
input mesh, re-encoded — and the reported stats have
`optimized_faces = original_faces` (hence `≤`) and
`reduction_percentage = 0`. -/
theorem c7_optimize_noop (simplify_quadric_decimation : Mesh → Nat → Mesh) (mesh : Mesh)
    (target_faces : Nat) (hle : mesh.faces ≤ target_faces) (hpos : 0 < mesh.faces) :
    ∃ st : OptStats,
      _optimize_model_sync simplify_quadric_decimation mesh target_faces =
        Except.ok (mesh, st) ∧
      st.original_faces = mesh.faces ∧
      st.optimized_faces = mesh.faces ∧
      st.optimized_faces ≤ st.original_faces ∧
      st.reduction_percentage = 0 := by
  have h1 : ¬ mesh.faces > target_faces := not_lt.mpr hle
  have h2 : ¬ mesh.faces = 0 := Nat.pos_iff_ne_zero.mp hpos
  have hcast : (mesh.faces : ℚ) ≠ 0 := Nat.cast_ne_zero.mpr h2
  have hred : pythonRound2 ((1 - (mesh.faces : ℚ) / (mesh.faces : ℚ)) * 100) = 0 := by
    rw [div_self hcast]
    norm_num [pythonRound2]
  refine ⟨{ original_faces := mesh.faces, original_vertices := mesh.vertices,
            optimized_faces := mesh.faces, optimized_vertices := mesh.vertices,
            reduction_percentage := 0 }, ?_, rfl, rfl, le_rfl, rfl⟩
  simp only [_optimize_model_sync, h1, if_false, h2, ite_false]
  rw [hred]

/-- Witness for C7 at the spec's Scenario A input: a 12-face cube and
`target_face_count = 10000`. -/
theorem c7_witness :
    ∃ st : OptStats,
      _optimize_model_sync (fun m _ => m) { faces := 12, vertices := 8 } 10000 =
        Except.ok (({ faces := 12, vertices := 8 } : Mesh), st) ∧
      st.original_faces = 12 ∧
      st.optimized_faces = 12 ∧
      st.optimized_faces ≤ st.original_faces ∧
      st.reduction_percentage = 0 := by
  have h := c7_optimize_noop (fun m _ => m) { faces := 12, vertices := 8 } 10000
    (by decide) (by decide)
  exact h

/-- Claim C10: on a completed job carrying an AR config, the result route
returns the job and, as a side effect, writes that config onto the product
(stamping `updated_at`), and a repeated poll performs the write again; on a
job in any other status the route answers with a 400 error and leaves the
product exactly as it was. -/
theorem c10_result_route_mutates_product (job : Job) (p : Product) (now now2 : Nat)
    (cfg : ArConfig) (hst : job.status = "completed") (hcfg : job.ar_config = some cfg) :
    (get_job_result job p now).1 = Except.ok job ∧
    (get_job_result job p now).2 = { p with ar_config := some cfg, updated_at := now } ∧
    (get_job_result job (get_job_result job p now).2 now2).2 =
      { p with ar_config := some cfg, updated_at := now2 } ∧
    (∀ (job2 : Job) (p2 : Product) (n : Nat), job2.status ≠ "completed" →
       get_job_result job2 p2 n =
         (Except.error (400, "Job is not completed. Current status: " ++ job2.status), p2)) := by
  have hne : ¬ job.status ≠ "completed" := by simp [hst]
  have hsecond : (get_job_result job p now).2 =
      { p with ar_config := some cfg, updated_at := now } := by
    unfold get_job_result
    rw [if_neg hne, hcfg]
    rfl
  refine ⟨?_, hsecond, ?_, ?_⟩
  · unfold get_job_result
    rw [if_neg hne, hcfg]
  · rw [hsecond]
    unfold get_job_result
    rw [if_neg hne, hcfg]
    rfl
  · intro job2 p2 n hne2
    unfold get_job_result
    rw [if_pos hne2]

/-- Witness for C10: a concrete completed job with the placeholder config,
polled twice, and a concrete pending job that triggers the 400 branch. -/
theorem c10_witness :
    (get_job_result
        { create_document "j1" "p1" "in.glb" "full_render" 0 with
            status := "completed", ar_config := some placeholder_ar_config }
        { product_id := "p1", ar_config := none, updated_at := 0 } 5).2 =
      { product_id := "p1", ar_config := some placeholder_ar_config, updated_at := 5 } ∧
    get_job_result (create_document "j2" "p1" "in.glb" "full_render" 0)
        { product_id := "p1", ar_config := none, updated_at := 0 } 5 =
      (Except.error (400, "Job is not completed. Current status: pending"),
       { product_id := "p1", ar_config := none, updated_at := 0 }) := by
  have h := c10_result_route_mutates_product
    { create_document "j1" "p1" "in.glb" "full_render" 0 with
        status := "completed", ar_config := some placeholder_ar_config }
    { product_id := "p1", ar_config := none, updated_at := 0 } 5 6
    placeholder_ar_config rfl rfl
  refine ⟨h.2.1, ?_⟩
  have h2 := h.2.2.2 (create_document "j2" "p1" "in.glb" "full_render" 0)
    { product_id := "p1", ar_config := none, updated_at := 0 } 5 (by decide)
  simpa using h2

/-- Claim C9: the job-history listing returns at most 100 jobs — exactly 100
when more than 100 exist, newest first, so the jobs dropped by the
truncation are no newer than any job returned — and the route's `total` is
the length of the truncated list, which undercounts the true number of jobs
whenever more than 100 exist. -/
theorem c9_history_truncated (db : List Job) (pid : String) :
    (get_jobs_by_product db pid).length =
        min 100 (db.filter (fun j => j.product_id == pid)).length ∧
    (get_product_jobs db pid).2 = (get_jobs_by_product db pid).length ∧
    (∀ x ∈ get_jobs_by_product db pid,
       ∀ y ∈ (sortNewestFirst (db.filter (fun j => j.product_id == pid))).drop 100,
         y.created_at ≤ x.created_at) ∧
    (100 < (db.filter (fun j => j.product_id == pid)).length →
       (get_product_jobs db pid).2 < (db.filter (fun j => j.product_id == pid)).length) := by
  have hperm := List.perm_insertionSort newerFirst (db.filter (fun j => j.product_id == pid))
  have hlen : (sortNewestFirst (db.filter (fun j => j.product_id == pid))).length =
      (db.filter (fun j => j.product_id == pid)).length := hperm.length_eq
  have hlen2 : (get_jobs_by_product db pid).length =
      min 100 (db.filter (fun j => j.product_id == pid)).length := by
    unfold get_jobs_by_product
    rw [List.length_take, hlen]
  have hsorted : List.Sorted newerFirst
      (sortNewestFirst (db.filter (fun j => j.product_id == pid))) :=
    List.sorted_insertionSort newerFirst _
  refine ⟨hlen2, rfl, ?_, ?_⟩
  · intro x hx y hy
    have hsplit :
        (sortNewestFirst (db.filter (fun j => j.product_id == pid))).take 100 ++
          (sortNewestFirst (db.filter (fun j => j.product_id == pid))).drop 100 =
          sortNewestFirst (db.filter (fun j => j.product_id == pid)) :=
      List.take_append_drop 100 _
    have hpair : List.Pairwise newerFirst
        ((sortNewestFirst (db.filter (fun j => j.product_id == pid))).take 100 ++
          (sortNewestFirst (db.filter (fun j => j.product_id == pid))).drop 100) := by
      rw [hsplit]; exact hsorted
    exact (List.pairwise_append.mp hpair).2.2 x hx y hy
  · intro hgt
    have : (get_product_jobs db pid).2 = (get_jobs_by_product db pid).length := rfl
    omega

/-- Witness for C9: with 101 jobs of one product the route reports
`total = 100`, smaller than the real count 101. -/
theorem c9_witness :
    (get_product_jobs db101 "p").2 = 100 ∧
    100 < (db101.filter (fun j => j.product_id == "p")).length := by
  have h := c9_history_truncated db101 "p"
  have hlen : (db101.filter (fun j => j.product_id == "p")).length = 101 := by rfl
  constructor
  · rw [h.2.1, h.1, hlen]
    decide
  · rw [hlen]
    decide

/-- Claim C1, as stated, is false on one point: the Blender path writes
`cleaning` twice in a row (progress 25, then 30), so the statuses do not
move strictly forward through the progression at every write; and `failed`
is not reachable from every non-terminal state — it is written only in the
Blender-disabled run, immediately after `cleaning`, where
`_simulate_processing` raises at entry.  (All written statuses do stay
within the claimed eight-state set.) -/
theorem c1_counterexample :
    statusWrites (process_job_background true) =
      ["validating", "cleaning", "cleaning", "optimizing", "rendering",
       "exporting", "completed"] ∧
    strictlyForward ("pending" :: statusWrites (process_job_background true)) = false ∧
    statusWrites (process_job_background false) =
      ["validating", "cleaning", "failed"] := by
  exact ⟨rfl, rfl, rfl⟩

/-- Claim C1, amended: every status written over a job's lifetime is one of
the spec's eight states.  With Blender disabled every run writes
validating, cleaning, failed — the `failed` write converts the ImportError
raised at the entry of `_simulate_processing` — and with Blender enabled the
run writes validating, cleaning, cleaning, optimizing, rendering, exporting,
completed.  The statuses move only forward through the progression, except
that `cleaning` repeats once consecutively on the Blender path; `completed`
and `failed` are terminal: no status is written after them. -/
theorem c1_statuses (use_blender : Bool) :
    (("pending" :: statusWrites (process_job_background use_blender)).all
        (fun s => allowedStatuses.contains s)) = true ∧
    forwardOnly ("pending" :: statusWrites (process_job_background use_blender)) = true ∧
    noStatusAfterTerminal
        ("pending" :: statusWrites (process_job_background use_blender)) = true ∧
    (create_document "j" "p" "f" "full_render" 0).status = "pending" ∧
    statusWrites (process_job_background false) =
      ["validating", "cleaning", "failed"] := by
  cases use_blender <;> exact ⟨rfl, rfl, rfl, rfl, rfl⟩

/-- Claim C2: in both real runs — the Blender path, and the
Blender-disabled run that fails at the entry ImportError — the observable
progress values are monotonically non-decreasing (the `failed` write passes
no progress, so progress keeps its last value, 25), and no Job Store write
of any kind follows the first terminal status, so progress is frozen once
the job is `completed` or `failed`. -/
theorem c2_progress (use_blender : Bool) (jid pid f jt : String) (now t : Nat) :
    progressNonDecreasing
        ((jobStates t (create_document jid pid f jt now)
            (process_job_background use_blender)).map Job.progress) = true ∧
    terminalIsFinal (process_job_background use_blender) = true := by
  rw [map_progress_jobStates]
  cases use_blender <;> exact ⟨rfl, rfl⟩

/-- Claim C3 describes the spec's Scenario B, which the code cannot
execute: `_simulate_processing` raises ImportError at entry, so the
optimizing stage is never entered and the Model Processor is never invoked
on any Blender-disabled run, stubbed or not.  What every such run actually
does: statuses validating, cleaning, failed; the non-empty ImportError
message stored in `error`; no outputs persisted; `ar_config` untouched;
progress frozen at the cleaning milestone 25; `completed_at` stamped on the
`failed` write; and the poller sees only this structured failed record,
never a raw exception (the handler in `process_job_background` converts the
ImportError like any other exception). -/
theorem c3_import_failure (jid pid f jt : String) (now t : Nat) :
    statusWrites (process_job_background false) =
      ["validating", "cleaning", "failed"] ∧
    (runTrace (t + 1) (create_document jid pid f jt now)
        (process_job_background false)).status = "failed" ∧
    (runTrace (t + 1) (create_document jid pid f jt now)
        (process_job_background false)).error = some upload_file_import_error ∧
    (runTrace (t + 1) (create_document jid pid f jt now)
        (process_job_background false)).progress = 25 ∧
    (runTrace (t + 1) (create_document jid pid f jt now)
        (process_job_background false)).output_files = [] ∧
    (runTrace (t + 1) (create_document jid pid f jt now)
        (process_job_background false)).ar_config = none ∧
    (runTrace (t + 1) (create_document jid pid f jt now)
        (process_job_background false)).completed_at = some (t + 3) ∧
    (upload_file_import_error == "") = false := by
  exact ⟨rfl, rfl, rfl, rfl, rfl, rfl, rfl, rfl⟩

/-- Claim C4, as stated, is false: the only path that completes a job —
the Blender path — writes an `output_files` mapping whose `"glb"` slot is
explicitly null (as is every other slot), so a completed job does not have a
non-null `output_files["glb"]`. -/
theorem c4_counterexample :
    (runTrace 1 (create_document "j1" "p1" "in.glb" "full_render" 0)
        (process_job_background true)).status = "completed" ∧
    (runTrace 1 (create_document "j1" "p1" "in.glb" "full_render" 0)
        (process_job_background true)).output_files.lookup "glb" =
      some OutVal.null := by
  exact ⟨rfl, rfl⟩

/-- Claim C4, amended: a job reaches `completed` only via the Blender path
(with Blender disabled every run ends `failed` at the entry ImportError).
The completed record does carry a non-null `ar_config` — the fixed
placeholder, whose `wrist_diameter` 6.5 is a positive number — but
`output_files["glb"]` is explicitly null, not a durable URL. -/
theorem c4_completed_outputs (use_blender : Bool) (jid pid f jt : String) (now : Nat)
    (hc : (runTrace (now + 1) (create_document jid pid f jt now)
        (process_job_background use_blender)).status = "completed") :
    use_blender = true ∧
    (runTrace (now + 1) (create_document jid pid f jt now)
        (process_job_background use_blender)).ar_config =
      some placeholder_ar_config ∧
    placeholder_ar_config.wrist_diameter = 13 / 2 ∧
    (0 : ℚ) < placeholder_ar_config.wrist_diameter ∧
    (runTrace (now + 1) (create_document jid pid f jt now)
        (process_job_background use_blender)).output_files.lookup "glb" =
      some OutVal.null := by
  cases use_blender
  · exfalso
    simp [process_job_background, _simulate_processing, runTrace, applyUpdate,
          create_document, upload_file_import_error] at hc
  · refine ⟨rfl, rfl, rfl, ?_, rfl⟩
    norm_num [placeholder_ar_config]

/-- Witness for C4: the Blender-path run completes with the placeholder
config and a null `glb` slot. -/
theorem c4_witness :
    (runTrace 1 (create_document "j1" "p1" "in.glb" "full_render" 0)
        (process_job_background true)).ar_config = some placeholder_ar_config ∧
    (runTrace 1 (create_document "j1" "p1" "in.glb" "full_render" 0)
        (process_job_background true)).output_files.lookup "glb" =
      some OutVal.null := by
  have h := c4_completed_outputs true "j1" "p1" "in.glb" "full_render" 0 rfl
  exact ⟨h.2.1, h.2.2.2.2⟩

/-! ## Task-queue helper lemmas -/

theorem length_filterMap_id_le (ws : List (Option Nat)) :
    (ws.filterMap id).length ≤ ws.length := by
  induction ws with
  | nil => simp
  | cons a as ih => cases a <;> simp [List.filterMap_cons] <;> omega

theorem filterMap_id_replicate_none (n : Nat) :
    (List.replicate n (none : Option Nat)).filterMap id = [] := by
  induction n with
  | zero => rfl
  | succ k ih => simp [List.replicate_succ, List.filterMap_cons, ih]

theorem setTaskRunning_map_id (ts : List TaskInfo) (t now : Nat) :
    (setTaskRunning ts t now).map TaskInfo.id = ts.map TaskInfo.id := by
  induction ts with
  | nil => rfl
  | cons a as ih =>
    simp only [setTaskRunning, List.map_cons] at ih ⊢
    refine congrArg₂ _ ?_ ih
    by_cases h : a.id = t <;> simp [h]

theorem setTaskDone_map_id (ts : List TaskInfo) (t : Nat) (ok : Bool) (err : String)
    (now : Nat) :
    (setTaskDone ts t ok err now).map TaskInfo.id = ts.map TaskInfo.id := by
  induction ts with
  | nil => rfl
  | cons a as ih =>
    simp only [setTaskDone, List.map_cons] at ih ⊢
    refine congrArg₂ _ ?_ ih
    by_cases h : a.id = t <;> cases ok <;> simp [h]

theorem mem_setTaskRunning {info : TaskInfo} {ts : List TaskInfo} {t now : Nat}
    (h : info ∈ setTaskRunning ts t now) :
    (info.id = t ∧ info.status = TaskStatus.running) ∨ (info ∈ ts ∧ info.id ≠ t) := by
  obtain ⟨a, ha, hfa⟩ := List.mem_map.mp h
  by_cases hid : a.id = t
  · left
    rw [if_pos hid] at hfa
    subst hfa
    exact ⟨hid, rfl⟩
  · right
    rw [if_neg hid] at hfa
    subst hfa
    exact ⟨ha, hid⟩

theorem mem_setTaskDone {info : TaskInfo} {ts : List TaskInfo} {t : Nat} {ok : Bool}
    {err : String} {now : Nat} (h : info ∈ setTaskDone ts t ok err now) :
    (info.status = TaskStatus.completed ∨ info.status = TaskStatus.failed) ∨
      (info ∈ ts ∧ info.id ≠ t) := by
  obtain ⟨a, ha, hfa⟩ := List.mem_map.mp h
  by_cases hid : a.id = t
  · left
    rw [if_pos hid] at hfa
    cases ok
    · rw [if_neg (by simp)] at hfa
      subst hfa
      right
      rfl
    · rw [if_pos rfl] at hfa
      subst hfa
      left
      rfl
  · right
    rw [if_neg hid] at hfa
    subst hfa
    exact ⟨ha, hid⟩

theorem filterMap_set_some (ws : List (Option Nat)) (w t : Nat)
    (h : ws.get? w = some none) :
    List.Perm ((ws.set w (some t)).filterMap id) (t :: ws.filterMap id) := by
  induction ws generalizing w with
  | nil => simp at h
  | cons a as ih =>
    cases w with
    | zero =>
      simp only [List.get?_cons_zero, Option.some.injEq] at h
      subst h
      simp [List.set, List.filterMap_cons]
    | succ w2 =>
      simp only [List.get?_cons_succ] at h
      cases a with
      | none =>
        simpa [List.set, List.filterMap_cons] using ih w2 h
      | some b =>
        simp only [List.set, List.filterMap_cons, id]
        exact ((ih w2 h).cons b).trans (List.Perm.swap t b _)

theorem filterMap_set_none (ws : List (Option Nat)) (w t : Nat)
    (h : ws.get? w = some (some t)) :
    List.Perm (ws.filterMap id) (t :: (ws.set w none).filterMap id) := by
  induction ws generalizing w with
  | nil => simp at h
  | cons a as ih =>
    cases w with
    | zero =>
      simp only [List.get?_cons_zero, Option.some.injEq] at h
      subst h
      simp [List.set, List.filterMap_cons]
    | succ w2 =>
      simp only [List.get?_cons_succ] at h
      cases a with
      | none =>
        simpa [List.set, List.filterMap_cons] using ih w2 h
      | some b =>
        simp only [List.set, List.filterMap_cons, id]
        exact ((ih w2 h).cons b).trans (List.Perm.swap t b _)

theorem tqinv_init (n : Nat) : TQInv (initState n) := by
  constructor <;>
    simp [initState, busyList, filterMap_id_replicate_none]

theorem tqinv_enqueue {s : TaskQueueState} (hs : TQInv s) (t : Nat) (name : String)
    (now : Nat) (fresh : t ∉ s.tasks.map TaskInfo.id) :
    TQInv (enqueueState s t name now) := by
  have hqsub : ∀ x ∈ s.queue, x ≠ t := fun x hx hxt =>
    fresh (hxt ▸ hs.queue_tasks x hx)
  have hbsub : ∀ x ∈ busyList s, x ≠ t := fun x hx hxt =>
    fresh (hxt ▸ hs.busy_tasks x hx)
  constructor
  · simp only [enqueueState, List.map_append]
    refine hs.ids_nodup.append (by simp [newTask]) ?_
    intro x hx hx2
    simp [newTask] at hx2
    subst hx2
    exact fresh hx
  · simpa [enqueueState, busyList] using hs.busy_nodup
  · simp only [enqueueState]
    refine hs.queue_nodup.append (by simp) ?_
    intro x hx hx2
    simp at hx2
    subst hx2
    exact hqsub x hx rfl
  · intro x hx
    simp only [enqueueState, List.mem_append, List.mem_singleton] at hx
    simp only [enqueueState, List.map_append]
    rcases hx with hx | hx
    · exact List.mem_append_left _ (hs.queue_tasks x hx)
    · subst hx
      exact List.mem_append_right _ (by simp [newTask])
  · intro x hx
    simp only [enqueueState, List.map_append]
    exact List.mem_append_left _ (hs.busy_tasks x (by simpa [enqueueState, busyList] using hx))
  · intro x hx
    simp only [enqueueState, List.mem_append, List.mem_singleton] at hx
    rcases hx with hx | hx
    · simpa [enqueueState, busyList] using hs.queue_busy_disjoint x hx
    · subst hx
      intro hmem
      exact hbsub x (by simpa [enqueueState, busyList] using hmem) rfl
  · intro info hinfo hrun
    simp only [enqueueState, List.mem_append, List.mem_singleton] at hinfo
    rcases hinfo with hinfo | hinfo
    · simpa [enqueueState, busyList] using hs.running_busy info hinfo hrun
    · subst hinfo
      simp [newTask] at hrun
  · simpa [enqueueState] using hs.workers_len

theorem tqinv_pick {s : TaskQueueState} (hs : TQInv s) (w t : Nat) (rest : List Nat)
    (now : Nat) (hq : s.queue = t :: rest) (hw : s.workers.get? w = some none) :
    TQInv (pickState s w t rest now) := by
  have hperm : List.Perm (busyList (pickState s w t rest now)) (t :: busyList s) := by
    simpa [pickState, busyList] using filterMap_set_some s.workers w t hw
  have htq : t ∈ s.queue := by simp [hq]
  have htnb : t ∉ busyList s := hs.queue_busy_disjoint t htq
  have hqn : t ∉ rest ∧ rest.Nodup := by
    have := hs.queue_nodup
    rw [hq] at this
    exact ⟨(List.nodup_cons.mp this).1, (List.nodup_cons.mp this).2⟩
  constructor
  · simpa [pickState, setTaskRunning_map_id] using hs.ids_nodup
  · rw [hperm.nodup_iff]
    exact List.nodup_cons.mpr ⟨htnb, hs.busy_nodup⟩
  · exact hqn.2
  · intro x hx
    have hxr : x ∈ rest := by simpa [pickState] using hx
    have hxq : x ∈ s.queue := by
      rw [hq]
      exact List.mem_cons_of_mem _ hxr
    simpa [pickState, setTaskRunning_map_id] using hs.queue_tasks x hxq
  · intro x hx
    have hx2 := hperm.mem_iff.mp hx
    simp only [List.mem_cons] at hx2
    rcases hx2 with hx2 | hx2
    · subst hx2
      simpa [pickState, setTaskRunning_map_id] using hs.queue_tasks x htq
    · simpa [pickState, setTaskRunning_map_id] using hs.busy_tasks x hx2
  · intro x hx hmem
    have hx2 := hperm.mem_iff.mp hmem
    simp only [List.mem_cons] at hx2
    rcases hx2 with hx2 | hx2
    · subst hx2
      exact hqn.1 (by simpa [pickState] using hx)
    · refine hs.queue_busy_disjoint x ?_ hx2
      rw [hq]
      exact List.mem_cons_of_mem _ (by simpa [pickState] using hx)
  · intro info hinfo hrun
    rw [hperm.mem_iff]
    rcases mem_setTaskRunning (by simpa [pickState] using hinfo) with h | h
    · simp [h.1]
    · exact List.mem_cons_of_mem _ (hs.running_busy info h.1 hrun)
  · simpa [pickState] using hs.workers_len

theorem tqinv_finish {s : TaskQueueState} (hs : TQInv s) (w t : Nat) (ok : Bool)
    (err : String) (now : Nat) (hw : s.workers.get? w = some (some t)) :
    TQInv (finishState s w t ok err now) := by
  have hperm : List.Perm (busyList s) (t :: busyList (finishState s w t ok err now)) := by
    simpa [finishState, busyList] using filterMap_set_none s.workers w t hw
  have hsub : ∀ x ∈ busyList (finishState s w t ok err now), x ∈ busyList s := by
    intro x hx
    exact hperm.mem_iff.mpr (List.mem_cons_of_mem _ hx)
  constructor
  · simpa [finishState, setTaskDone_map_id] using hs.ids_nodup
  · have := hperm.nodup_iff.mp hs.busy_nodup
    exact (List.nodup_cons.mp this).2
  · simpa [finishState] using hs.queue_nodup
  · intro x hx
    simpa [finishState, setTaskDone_map_id] using
      hs.queue_tasks x (by simpa [finishState] using hx)
  · intro x hx
    simpa [finishState, setTaskDone_map_id] using hs.busy_tasks x (hsub x hx)
  · intro x hx hmem
    exact hs.queue_busy_disjoint x (by simpa [finishState] using hx) (hsub x hmem)
  · intro info hinfo hrun
    rcases mem_setTaskDone (by simpa [finishState] using hinfo) with h | h
    · rcases h with h | h <;> rw [hrun] at h <;> exact absurd h (by decide)
    · have hb := hs.running_busy info h.1 hrun
      have := hperm.mem_iff.mp hb
      simp only [List.mem_cons] at this
      rcases this with h2 | h2
      · exact absurd h2 h.2
      · exact h2
  · simpa [finishState] using hs.workers_len

theorem tqinv_step {s s2 : TaskQueueState} (hs : TQInv s) (hstep : TaskStep s s2) :
    TQInv s2 := by
  cases hstep with
  | enqueue t name now fresh => exact tqinv_enqueue hs t name now fresh
  | pick w t rest now hq hw => exact tqinv_pick hs w t rest now hq hw
  | finish w t ok err now hw => exact tqinv_finish hs w t ok err now hw

theorem running_le_busy {s : TaskQueueState} (hs : TQInv s) :
    s.tasks.countP (fun i => i.status == TaskStatus.running) ≤ (busyList s).length := by
  rw [List.countP_eq_length_filter]
  have hsub : (s.tasks.filter (fun i => i.status == TaskStatus.running)).map TaskInfo.id ⊆
      busyList s := by
    intro x hx
    obtain ⟨info, hinfo, rfl⟩ := List.mem_map.mp hx
    have h1 := List.mem_filter.mp hinfo
    exact hs.running_busy info h1.1 (by simpa using h1.2)
  have hnd : ((s.tasks.filter (fun i => i.status == TaskStatus.running)).map
      TaskInfo.id).Nodup :=
    hs.ids_nodup.sublist ((List.filter_sublist _).map _)
  calc (s.tasks.filter (fun i => i.status == TaskStatus.running)).length
      = ((s.tasks.filter (fun i => i.status == TaskStatus.running)).map
          TaskInfo.id).length := (List.length_map _ _).symm
    _ ≤ (busyList s).length := (hnd.subperm hsub).length_le

theorem tqinv_reachable {n : Nat} {s : TaskQueueState} (h : TaskReachable n s) :
    TQInv s ∧ s.max_workers = n := by
  induction h with
  | init => exact ⟨tqinv_init n, rfl⟩
  | step hr hstep ih =>
    refine ⟨tqinv_step ih.1 hstep, ?_⟩
    cases hstep <;> simpa [enqueueState, pickState, finishState] using ih.2

/-- Claim C8: from a freshly started scheduler with `n` workers (the
process-wide instance uses the default `max_workers = 5`), in every
reachable state the `running` counter reported by `get_queue_stats` is at
most `n` — each running task occupies exactly one worker slot — and a
submission with a fresh task id is always accepted (the `enqueue` step is
enabled in every state), so submissions beyond pool capacity wait in the
queue rather than being rejected. -/
theorem c8_running_bounded (n : Nat) (s : TaskQueueState) (h : TaskReachable n s) :
    (get_queue_stats s).running ≤ n ∧
    (get_queue_stats s).workers = n ∧
    (∀ (t : Nat) (name : String) (now : Nat), t ∉ s.tasks.map TaskInfo.id →
       TaskStep s (enqueueState s t name now)) := by
  obtain ⟨hinv, hmax⟩ := tqinv_reachable h
  refine ⟨?_, by simp [get_queue_stats, hmax],
    fun t name now fresh => TaskStep.enqueue s t name now fresh⟩
  calc (get_queue_stats s).running
      ≤ (busyList s).length := running_le_busy hinv
    _ ≤ s.workers.length := length_filterMap_id_le s.workers
    _ = s.max_workers := hinv.workers_len
    _ = n := hmax

/-- Witness for C8: the default five-worker instance, after one submission
and one worker pick-up, reports one running task, within the bound 5. -/
theorem c8_witness :
    (get_queue_stats
        (pickState (enqueueState task_queue_init 0 "model_process_job_background" 1)
          0 0 [] 2)).running ≤ 5 ∧
    (get_queue_stats
        (pickState (enqueueState task_queue_init 0 "model_process_job_background" 1)
          0 0 [] 2)).running = 1 ∧
    (get_queue_stats
        (pickState (enqueueState task_queue_init 0 "model_process_job_background" 1)
          0 0 [] 2)).workers = 5 := by
  have h1 : TaskStep task_queue_init
      (enqueueState task_queue_init 0 "model_process_job_background" 1) :=
    TaskStep.enqueue task_queue_init 0 "model_process_job_background" 1 (by decide)
  have h2 : TaskStep (enqueueState task_queue_init 0 "model_process_job_background" 1)
      (pickState (enqueueState task_queue_init 0 "model_process_job_background" 1)
        0 0 [] 2) :=
    TaskStep.pick _ 0 0 [] 2 rfl rfl
  have hr : TaskReachable 5
      (pickState (enqueueState task_queue_init 0 "model_process_job_background" 1)
        0 0 [] 2) :=
    TaskReachable.step (TaskReachable.step TaskReachable.init h1) h2
  have h := c8_running_bounded 5 _ hr
  exact ⟨h.1, rfl, h.2.1⟩
